import Mathlib

set_option maxHeartbeats 1000000

/-!
Shallow embedding of the `leaflet-2.0-almostOver` bundle
(`leaflet-2-almostover.js`): the GeometryUtil part (`closest`,
`closestLayer`, `closestLayerSnap`, `closestOnCircle`, `closestOnSegment`,
`distanceSegment`) and the `AlmostOverHandler` part (`addLayer`,
`removeLayer`, `getClosest`, `_onMouseMove`).

Numbers are modelled as rationals.  External Leaflet collaborators
(`map.latLngToLayerPoint`, `map.project`/`unproject`,
`LineUtil.pointToSegmentDistance`, `LineUtil.closestPointOnSegment`,
`Math.sqrt`, `Util.stamp`, the `almostDistance` option) are abstract fields
of a context structure `Ctx`; theorems quantify over them unless stated on a
concrete context.

JavaScript exceptions are modelled with `Except JsErr`.  Two behaviours of
the bundle matter throughout:
* the bundled geometry helpers are plain functions in a `'use strict'`
  module, so in `this.distance(map, ...)` (source lines 156, 207, 210, 251)
  `this` is `undefined` and the member access throws a `TypeError`;
* `new leaflet.LatLng(lat, lng)` rejects non-numeric/NaN input
  ("Invalid LatLng object"), which is how the `0/0 = NaN` coordinates of a
  degenerate `closestOnCircle` surface as an exception.
-/

/-- Geographic coordinate (leaflet `LatLng` value). -/
structure LatLng where
  lat : ℚ
  lng : ℚ
deriving DecidableEq, Repr

/-- Planar point (leaflet `Point` value). -/
structure Point where
  x : ℚ
  y : ℚ
deriving DecidableEq, Repr

/-- Runtime failures of the JavaScript code.  `typeError` covers both a
member access / method call on `undefined` or `null` (e.g. `this.distance`
with `this === undefined`, or `subResult.distance` with `subResult === null`)
and `invalidLatLng` is the `Invalid LatLng object` error thrown by the
`LatLng` constructor.  `stackOverflow` stands for exhaustion of the
recursion budget (the fuel of the embedding). -/
inductive JsErr where
  | typeError
  | invalidLatLng
  | stackOverflow
deriving DecidableEq, Repr

/-- JavaScript values that flow through the geometry pipeline: plain
`{lat, lng}` objects (what `JSON.parse(JSON.stringify(...))` leaves of a
`LatLng`), `LatLng` instances, `[number, number]` pairs, generic arrays,
`undefined`, and the Leaflet layer objects the plugin dispatches on
(`Polyline`/`Polygon` with its stored latlngs, `Circle`, point layers that
only expose `getLatLng` (`marker`), `LayerGroup`, and any other object
(`plain`)). -/
inductive JsVal where
  | obj (lat lng : ℚ)
  | llv (p : LatLng)
  | num2 (a b : ℚ)
  | arr (xs : List JsVal)
  | undef
  | polyline (latlngs : List JsVal) (isPoly : Bool)
  | circle (center : LatLng) (radius : ℚ)
  | marker (p : LatLng)
  | group (layers : List JsVal)
  | plain

/-- Result of `closest`: a `LatLng` with a `distance` property bolted on
(the source stores the distance on the returned latlng object). -/
structure CResult where
  latlng : LatLng
  distance : ℚ
deriving DecidableEq, Repr

/-- Result of `closestLayer` / `closestLayerSnap`: `{layer, latlng,
distance}`.  `latlng` is an `Option` because the source can store the `null`
result of `closest` there; `distance` is an `Option ℚ` whose `none` stands
for the JavaScript `Infinity`. -/
structure SnapResult where
  layer : JsVal
  latlng : Option LatLng
  distance : Option ℚ

/-- The four loop variables of `closestLayer` (source lines 191-194):
`mindist` and `distance` start at `Infinity` (`none`), `result` and `ll` at
`null`.  `ll` and `distance` deliberately persist across loop iterations,
exactly as in the source. -/
structure CLState where
  mindist : Option ℚ
  result : Option SnapResult
  ll : Option LatLng
  distance : Option ℚ

def initCLState : CLState := ⟨none, none, none, none⟩

/-- External collaborators of the plugin, bundled in one context:
the Leaflet map projection functions, the two `LineUtil` planar primitives,
`Math.sqrt`, `Util.stamp` (per-object id used for identity comparison), and
the map option `almostDistance`.  `getMaxZoom = none` models a map whose
`getMaxZoom()` is `Infinity`. -/
structure Ctx where
  latLngToLayerPoint : LatLng → Point
  pointToSegmentDistance : Point → Point → Point → ℚ
  closestPointOnSegment : Point → Point → Point → Point
  project : LatLng → ℚ → Point
  unproject : Point → ℚ → LatLng
  getMaxZoom : Option ℚ
  getZoom : ℚ
  msqrt : ℚ → ℚ
  stamp : JsVal → ℕ
  almostDistance : ℚ

/-- Strict `<` on JavaScript numbers-with-`Infinity`: `none` is `+∞`. -/
def qltInf : Option ℚ → Option ℚ → Bool
  | some a, some b => decide (a < b)
  | some _, none => true
  | none, _ => false

/-- Non-strict `<=` on JavaScript numbers-with-`Infinity`: `none` is `+∞`. -/
def qleInf : Option ℚ → Option ℚ → Bool
  | some a, some b => decide (a ≤ b)
  | some _, none => true
  | none, some _ => false
  | none, none => true

/-- The Leaflet 2 `LatLng` constructor applied to one argument, as used in
`new leaflet.LatLng(latlngs[i])`: accepts a `LatLng` instance, a plain
`{lat, lng}` object, or a `[lat, lng]` number pair; everything else
(`undefined`, nested arrays, foreign objects) throws
`Invalid LatLng object`. -/
def newLatLng : JsVal → Except JsErr LatLng
  | .obj a b => .ok ⟨a, b⟩
  | .llv p => .ok p
  | .num2 a b => .ok ⟨a, b⟩
  | _ => .error .invalidLatLng

/-- `isFlat(latlngs)` (source lines 13-16):
`!isArray(latlngs[0]) || (typeof latlngs[0][0] !== 'object' && typeof
latlngs[0][0] !== 'undefined')`.  An empty list is flat (`latlngs[0]` is
`undefined`, not an array); a list headed by a number pair is flat (its
`[0][0]` is a number); a list headed by any other array is not flat (its
`[0][0]` is an object or `undefined`). -/
def isFlat : List JsVal → Bool
  | [] => true
  | .arr _ :: _ => false
  | _ :: _ => true

mutual

/-- One element of `JSON.parse(JSON.stringify(...))`: a `LatLng` instance
becomes a plain `{lat, lng}` object, arrays are copied recursively, numbers
survive, and objects with methods (layers) lose everything relevant and are
modelled as `plain`. -/
def deepCopyV : JsVal → JsVal
  | .obj a b => .obj a b
  | .llv p => .obj p.lat p.lng
  | .num2 a b => .num2 a b
  | .arr xs => .arr (deepCopyEach xs)
  | .undef => .undef
  | _ => .plain

/-- `JSON.parse(JSON.stringify(latlngs))` on a list. -/
def deepCopyEach : List JsVal → List JsVal
  | [] => []
  | x :: xs => deepCopyV x :: deepCopyEach xs

end

mutual

/-- `addLastSegment(latlngsArr)` (source lines 131-139): if the list is
flat, push its first element (`[].push(undefined)` for an empty list —
modelled by `headD .undef`); otherwise call itself on every element.  A
non-array element at a non-flat level makes the source call `.push` on a
non-array, a `TypeError`. -/
def addLastSegment (l : List JsVal) : Except JsErr (List JsVal) :=
  if isFlat l then .ok (l ++ [l.headD .undef]) else alsEach l

/-- The `for` loop of `addLastSegment` over a non-flat list. -/
def alsEach : List JsVal → Except JsErr (List JsVal)
  | [] => .ok []
  | x :: xs => do
    let y ← match x with
            | .arr ys => (fun l => JsVal.arr l) <$> addLastSegment ys
            | _ => Except.error JsErr.typeError
    let rest ← alsEach xs
    pure (y :: rest)

end

/-- `new leaflet.Polyline(layer)` followed by `getLatLngs()` for the flat
arrays on which `closest` performs the conversion (source line 119): each
element is converted by the Leaflet `latLng` factory into a `LatLng`
instance; invalid elements throw `Invalid LatLng object`. -/
def convertLatLngs (l : List JsVal) : Except JsErr (List JsVal) :=
  l.mapM (fun x => (fun p => JsVal.llv p) <$> newLatLng x)

/-- `distanceSegment` (source lines 26-31). -/
def distanceSegment (ctx : Ctx) (latlng latlngA latlngB : LatLng) : ℚ :=
  ctx.pointToSegmentDistance (ctx.latLngToLayerPoint latlng)
    (ctx.latLngToLayerPoint latlngA) (ctx.latLngToLayerPoint latlngB)

/-- `maxzoom` computation of `closestOnSegment` (source lines 45-47). -/
def maxzoomOf (ctx : Ctx) : ℚ :=
  match ctx.getMaxZoom with
  | none => ctx.getZoom
  | some z => z

/-- `closestOnSegment` (source lines 44-53). -/
def closestOnSegment (ctx : Ctx) (latlng latlngA latlngB : LatLng) : LatLng :=
  let mz := maxzoomOf ctx
  ctx.unproject
    (ctx.closestPointOnSegment (ctx.project latlng mz) (ctx.project latlngA mz)
      (ctx.project latlngB mz)) mz

/-- `closestOnCircle` (source lines 64-84).  When the query point equals the
center, `dx/distance` and `dy/distance` are `0/0 = NaN`, and
`new leaflet.LatLng(NaN, NaN)` throws — modelled by the explicit guard.
Otherwise the circumference point is returned (the value of `Math.sqrt` is
the abstract `ctx.msqrt`). -/
def closestOnCircle (ctx : Ctx) (center : LatLng) (radius : ℚ) (latLng : LatLng) :
    Except JsErr LatLng :=
  let dx := latLng.lng - center.lng
  let dy := latLng.lat - center.lat
  if dx = 0 ∧ dy = 0 then .error .invalidLatLng
  else
    let distance := ctx.msqrt (dx * dx + dy * dy)
    .ok ⟨center.lat + dy / distance * radius, center.lng + dx / distance * radius⟩

/-- The segment loop of `closest` (source lines 166-175), over consecutive
vertex pairs: build both endpoints with the `LatLng` constructor, measure
with `distanceSegment`, and keep the minimum using `<=` (a later
equal-distance segment overrides an earlier one). -/
def segLoop (ctx : Ctx) (latlng : LatLng) :
    List (JsVal × JsVal) → Option ℚ × Option CResult →
    Except JsErr (Option ℚ × Option CResult)
  | [], st => .ok st
  | (a, b) :: rest, st => do
    let latlngA ← newLatLng a
    let latlngB ← newLatLng b
    let distance := distanceSegment ctx latlng latlngA latlngB
    let st :=
      if qleInf (some distance) st.1 then
        (some distance, some ⟨closestOnSegment ctx latlng latlngA latlngB, distance⟩)
      else st
    segLoop ctx latlng rest st

/-- `closest(map, layer, latlng, vertices)` (source lines 100-178), indexed
by a recursion budget (`fuel`); every recursive call of the source consumes
one unit.  Branches, in source order:
* `layer instanceof Array` with `layer[0]` an array of non-numbers: recurse
  into every element, keeping the minimum with strict `<` and a null guard
  (`subResult && subResult.distance < mindist`, lines 108-114);
* `layer instanceof Array` with a `LatLng`/number-pair/`{lat}` head:
  `layer = new Polyline(layer)` and continue as for that polyline
  (lines 116-119) — the continuation is the recursive call on the converted
  polyline;
* an empty array (or one headed by `undefined`) throws: `typeof
  layer[0][0]` reads a property of `undefined`;
* a bare number pair falls through both array tests and returns `null`;
* not a `Polyline`: return `null` (line 125-126);
* a `Polyline`: deep-copy `getLatLngs()`, close rings when it is a
  `Polygon`, then the non-flat recursion (no null guard: `subResult.distance`
  throws when a sub-search returns `null`, lines 144-150), the vertex loop
  (whose body calls `this.distance` with `this === undefined` — a
  `TypeError` on the first vertex, lines 153-163), or the segment loop. -/
def closest (ctx : Ctx) : Nat → JsVal → LatLng → Bool → Except JsErr (Option CResult)
  | 0, _, _, _ => .error .stackOverflow
  | Nat.succ n, layer, latlng, vertices =>
    match layer with
    | .arr [] => .error .typeError
    | .arr (x :: rest) =>
      match x with
      | .arr _ => do
        let st ← (x :: rest).foldlM
          (fun (st : Option ℚ × Option CResult) li => do
            let subResult ← closest ctx n li latlng vertices
            match subResult with
            | some sr =>
              pure (if qltInf (some sr.distance) st.1 then (some sr.distance, some sr) else st)
            | none => pure st)
          (none, none)
        pure st.2
      | .llv _ | .num2 _ _ | .obj _ _ => do
        let conv ← convertLatLngs (x :: rest)
        closest ctx n (.polyline conv false) latlng vertices
      | .undef => .error .typeError
      | _ => pure none
    | .polyline lls isPoly => do
      let latlngs := deepCopyEach lls
      let latlngs ← if isPoly then addLastSegment latlngs else pure latlngs
      if isFlat latlngs = false then do
        let st ← latlngs.foldlM
          (fun (st : Option ℚ × Option CResult) li => do
            let subResult ← closest ctx n li latlng vertices
            match subResult with
            | none => Except.error JsErr.typeError
            | some sr =>
              pure (if qltInf (some sr.distance) st.1 then (some sr.distance, some sr) else st))
          (none, none)
        pure st.2
      else if vertices then
        match latlngs with
        | [] => pure none
        | v :: _ => do
          let _ ← newLatLng v
          Except.error JsErr.typeError
      else do
        let st ← segLoop ctx latlng (latlngs.zip latlngs.tail) (none, none)
        pure st.2
    | _ => pure none

/-- `closestLayer(map, layers, latlng)` (source lines 190-226).  Per layer:
a `LayerGroup` recurses into its children and reads `subResult.distance`
without a null guard (a `TypeError` when the sub-search returns `null`); a
`Circle` computes `closestOnCircle` and then calls `this.distance` with
`this === undefined` (`TypeError`); a layer with `getLatLng` calls
`this.distance` likewise; everything else runs `closest` in segment mode.
The global minimum is kept with strict `<`; the loop variables `ll` and
`distance` persist across iterations exactly as in the source. -/
def closestLayer (ctx : Ctx) : Nat → List JsVal → LatLng → Except JsErr (Option SnapResult)
  | 0, _, _ => .error .stackOverflow
  | Nat.succ n, layers, latlng => do
    let st ← layers.foldlM
      (fun (st : CLState) layer =>
        match layer with
        | .group ls => do
          let subResult ← closestLayer ctx n ls latlng
          match subResult with
          | none => Except.error JsErr.typeError
          | some sr =>
            pure (if qltInf sr.distance st.mindist then
                    { st with mindist := sr.distance, result := some sr }
                  else st)
        | _ => do
          let st ←
            match layer with
            | .circle c r => do
              let _ ← closestOnCircle ctx c r latlng
              Except.error JsErr.typeError
            | .marker _ => Except.error JsErr.typeError
            | _ => do
              let r ← closest ctx n layer latlng false
              pure (match r with
                    | some cr => { st with ll := some cr.latlng, distance := some cr.distance }
                    | none => { st with ll := none })
          pure (if qltInf st.distance st.mindist then
                  { st with mindist := st.distance,
                            result := some ⟨layer, st.ll, st.distance⟩ }
                else st))
      initCLState
    pure st.result

/-- `typeof result.layer.getLatLngs == 'function'`: only polylines and
polygons expose `getLatLngs`. -/
def hasGetLatLngs : JsVal → Bool
  | .polyline _ _ => true
  | _ => false

/-- `closestLayerSnap(map, layers, latlng, tolerance, withVertices)`
(source lines 242-255).  Absent result or `result.distance > tolerance`
returns `null`; otherwise, with `withVertices` and a `getLatLngs`-bearing
winner, the vertex refinement runs `closest(map, result.layer,
result.latlng, true)` (against the snapped point), dereferences its
`.distance` (a `TypeError` when it is `null`), and when the refined distance
is strictly below the tolerance replaces the point and recomputes the
distance with `this.distance(map, closestResult, latlng)` against the
original query point — a call that throws because `this` is `undefined`. -/
def closestLayerSnap (ctx : Ctx) (fuel : Nat) (layers : List JsVal) (latlng : LatLng)
    (tolerance : Option ℚ) (withVertices : Bool) : Except JsErr (Option SnapResult) := do
  let result ← closestLayer ctx fuel layers latlng
  match result with
  | none => pure none
  | some result =>
    if qltInf tolerance result.distance then pure none
    else if withVertices && hasGetLatLngs result.layer then do
      let q ← match result.latlng with
              | some p => pure p
              | none => Except.error JsErr.typeError
      let closestResult ← closest ctx fuel result.layer q true
      match closestResult with
      | none => Except.error JsErr.typeError
      | some cr =>
        if qltInf (some cr.distance) tolerance then Except.error JsErr.typeError
        else pure (some result)
    else pure (some result)

/-- State of an `AlmostOverHandler`: the registered layer list `_layers`
and the previously-closest result `_previous` (the `_marker` and `_buffer`
fields of the source are never read by the modelled operations). -/
structure HState where
  layers : List JsVal
  previous : Option SnapResult

/-- Events fired on the map by the handler (`almost:over`, `almost:out`,
`almost:move`), with their payloads. -/
inductive Ev where
  | over (layer : JsVal) (latlng : Option LatLng)
  | out (layer : JsVal)
  | move (layer : JsVal) (latlng : Option LatLng)

mutual

/-- Structural equality test on `JsVal`, used to model the `===` comparison
of `Array.prototype.indexOf` in `removeLayer` (on the heap `===` is object
identity; in this value model two layers are identified exactly when they
are built from the same data). -/
def beqV : JsVal → JsVal → Bool
  | .obj a b, .obj a' b' => a == a' && b == b'
  | .llv p, .llv p' => p == p'
  | .num2 a b, .num2 a' b' => a == a' && b == b'
  | .arr xs, .arr ys => beqL xs ys
  | .undef, .undef => true
  | .polyline xs p, .polyline ys q => beqL xs ys && p == q
  | .circle c r, .circle c' r' => c == c' && r == r'
  | .marker p, .marker p' => p == p'
  | .group xs, .group ys => beqL xs ys
  | .plain, .plain => true
  | _, _ => false

/-- `beqV` on lists. -/
def beqL : List JsVal → List JsVal → Bool
  | [], [] => true
  | x :: xs, y :: ys => beqV x y && beqL xs ys
  | _, _ => false

end

/-- `this._layers.indexOf(layer)` followed by `splice(index, 1)` (source
lines 354-357): remove the first matching element, if any. -/
def eraseFirst : List JsVal → JsVal → List JsVal
  | [], _ => []
  | y :: ys, x => if beqV y x then ys else y :: eraseFirst ys x

/-- `typeof layer.eachLayer === 'function'`: only layer groups expose
`eachLayer` in this model. -/
def isGroup : JsVal → Bool
  | .group _ => true
  | _ => false

mutual

/-- The leaf layers a (possibly nested) layer expands to: groups are
recursively flattened, anything else is a single leaf. -/
def leaves : JsVal → List JsVal
  | .group ls => leavesL ls
  | v => [v]

/-- `leaves` over a list of children. -/
def leavesL : List JsVal → List JsVal
  | [] => []
  | x :: xs => leaves x ++ leavesL xs

end

mutual

/-- `AlmostOverHandler.addLayer` (source lines 334-342): a layer with
`eachLayer` is expanded child by child, a leaf layer is pushed onto
`this._layers`. -/
def hAddLayer (st : HState) (layer : JsVal) : HState :=
  match layer with
  | .group ls => hAddEach st ls
  | l => { st with layers := st.layers ++ [l] }

/-- The `eachLayer` iteration of `addLayer`. -/
def hAddEach (st : HState) : List JsVal → HState
  | [] => st
  | x :: xs => hAddEach (hAddLayer st x) xs

end

mutual

/-- `AlmostOverHandler.removeLayer` (source lines 348-360): a layer with
`eachLayer` is expanded child by child, a leaf layer is spliced out of
`this._layers` at its first index; in every case `this._previous` is then
set to `null`, and no event is fired. -/
def hRemoveLayer (st : HState) (layer : JsVal) : HState × List Ev :=
  match layer with
  | .group ls => ({ hRemoveEach st ls with previous := none }, [])
  | l => ({ layers := eraseFirst st.layers l, previous := none }, [])

/-- The `eachLayer` iteration of `removeLayer`. -/
def hRemoveEach (st : HState) : List JsVal → HState
  | [] => st
  | x :: xs => hRemoveEach (hRemoveLayer st x).1 xs

end

/-- `AlmostOverHandler.getClosest` (source lines 367-377):
`closestLayerSnap(this._map, this._layers, latlng, this._map.options.almostDistance, false)`. -/
def getClosest (ctx : Ctx) (fuel : Nat) (st : HState) (latlng : LatLng) :
    Except JsErr (Option SnapResult) :=
  closestLayerSnap ctx fuel st.layers latlng (some ctx.almostDistance) false

/-- `AlmostOverHandler._onMouseMove` (source lines 384-406), as a function
from the handler state and the event's `latlng` to the new state, the fired
events in order, and the exception (if any) that escapes the handler.  An
event without `latlng` returns immediately.  A `getClosest` failure
propagates before any event is fired and before `this._previous` is
assigned.  Otherwise: no previous → `over`; previous with a different
`Util.stamp` → `out` then `over`; any hit → `move`; miss with a previous →
`out`; finally `this._previous = closest`. -/
def onMouseMove (ctx : Ctx) (fuel : Nat) (st : HState) (e : Option LatLng) :
    HState × List Ev × Option JsErr :=
  match e with
  | none => (st, [], none)
  | some latlng =>
    match getClosest ctx fuel st latlng with
    | .error er => (st, [], some er)
    | .ok closest =>
      let evs :=
        match closest, st.previous with
        | some c, none => [Ev.over c.layer c.latlng, Ev.move c.layer c.latlng]
        | some c, some prev =>
          if ctx.stamp prev.layer ≠ ctx.stamp c.layer then
            [Ev.out prev.layer, Ev.over c.layer c.latlng, Ev.move c.layer c.latlng]
          else
            [Ev.move c.layer c.latlng]
        | none, some prev => [Ev.out prev.layer]
        | none, none => []
      ({ st with previous := closest }, evs, none)

/-- Is every element a plain `{lat, lng}` object? -/
def isObjList : List JsVal → Bool
  | [] => true
  | .obj _ _ :: xs => isObjList xs
  | _ :: _ => false

mutual

/-- Well-formed polygon latlngs as produced by the `JSON` deep copy of a
real Leaflet polygon: a non-empty flat ring of plain `{lat, lng}` objects,
or a list of nested arrays of the same shape. -/
def wfRings (l : List JsVal) : Bool :=
  if isFlat l then !l.isEmpty && isObjList l else wfEach l

/-- `wfRings` for every element of a non-flat list. -/
def wfEach : List JsVal → Bool
  | [] => true
  | .arr ys :: xs => wfRings ys && wfEach xs
  | _ :: _ => false

end

mutual

/-- The closing step as the specification words it: append a synthetic
closing segment connecting the last vertex back to the first — i.e. append
the first vertex — at every nesting level.  This is the comparator the
source's `addLastSegment` is proved to refine on well-formed rings. -/
def specClose (l : List JsVal) : List JsVal :=
  if isFlat l then l ++ l.take 1 else specCloseEach l

/-- `specClose` applied below one nesting level. -/
def specCloseEach : List JsVal → List JsVal
  | [] => []
  | .arr ys :: xs => .arr (specClose ys) :: specCloseEach xs
  | x :: xs => x :: specCloseEach xs

end

/-- Layers on which `closest` takes neither the array branch nor the
`Polyline` branch: it cannot decompose them into points. -/
def undecomposable : JsVal → Bool
  | .arr _ => false
  | .polyline _ _ => false
  | _ => true

/-- A concrete context used for the concrete evaluations below.  The
projection and distance collaborators are simple total functions; what
matters for the evaluated claims is only the control flow of the plugin
code, which is independent of their values. -/
def ctx0 : Ctx where
  latLngToLayerPoint := fun p => ⟨p.lng, p.lat⟩
  pointToSegmentDistance := fun p a _b => (p.x - a.x) + (p.y - a.y)
  closestPointOnSegment := fun _p a _b => a
  project := fun p _ => ⟨p.lng, p.lat⟩
  unproject := fun pt _ => ⟨pt.y, pt.x⟩
  getMaxZoom := some 18
  getZoom := 10
  msqrt := fun _ => 1
  stamp := fun _ => 0
  almostDistance := 25

/-- A two-vertex polyline from (0,0) to (10,0). -/
def poly2 : JsVal := .polyline [.llv ⟨0, 0⟩, .llv ⟨10, 0⟩] false

/-- A context in which every point-to-segment distance is `0`: every
segment of every shape is an exact tie, and `closestPointOnSegment`
returns the segment's start point, so the produced point identifies which
candidate won a tie. -/
def ctx4 : Ctx := { ctx0 with pointToSegmentDistance := fun _ _ _ => 0 }

/-- A three-vertex polyline: two segments, tied under `ctx4`. -/
def polyABC : JsVal := .polyline [.llv ⟨0, 0⟩, .llv ⟨1, 1⟩, .llv ⟨2, 2⟩] false

/-- A nested (multi-)polyline with two sub-lines, tied under `ctx4`. -/
def polyNest : JsVal :=
  .polyline [.arr [.obj 0 0, .obj 1 1], .arr [.obj 7 7, .obj 8 8]] false

/-- A two-vertex polyline starting at (0,0). -/
def polyA2 : JsVal := .polyline [.llv ⟨0, 0⟩, .llv ⟨1, 1⟩] false

/-- A two-vertex polyline starting at (7,7). -/
def polyB2 : JsVal := .polyline [.llv ⟨7, 7⟩, .llv ⟨8, 8⟩] false

/-- `ctx4` with a `Util.stamp` that distinguishes `polyA2` from every other
layer (distinct objects have distinct stamps on a real heap). -/
def ctx5 : Ctx := { ctx4 with stamp := fun v => if beqV v polyA2 then 0 else 1 }

/-- A previously-tracked result whose layer is `polyA2`. -/
def snapA : SnapResult := ⟨polyA2, some ⟨0, 0⟩, some 0⟩

/-- A handler state whose layer list makes every proximity query throw (an
empty `LayerGroup` is registered), while a previous result is tracked. -/
def stC2 : HState := ⟨[.group []], some snapA⟩

/-- A flat polygon ring of three plain `{lat, lng}` objects. -/
def ring0 : List JsVal := [.obj 0 0, .obj 10 0, .obj 10 10]

/-! ## Evaluation helpers and general lemmas -/

/-- Evaluation helper: `pure` on `Except` is `ok`. -/
@[simp] theorem exc_pure_eq_ok {ε α : Type} (a : α) : (pure a : Except ε α) = Except.ok a := rfl

/-- Evaluation helper: bind on an `ok`. -/
@[simp] theorem exc_bind_ok {ε α β : Type} (a : α) (f : α → Except ε β) :
    (Except.ok a : Except ε α) >>= f = f a := rfl

/-- Evaluation helper: bind on an `error`. -/
@[simp] theorem exc_bind_error {ε α β : Type} (e : ε) (f : α → Except ε β) :
    (Except.error e : Except ε α) >>= f = Except.error e := rfl

/-- Evaluation helper: map on an `ok`. -/
@[simp] theorem exc_map_ok {ε α β : Type} (g : α → β) (a : α) :
    (g <$> (Except.ok a : Except ε α)) = Except.ok (g a) := rfl

/-- Evaluation helper: map on an `error`. -/
@[simp] theorem exc_map_error {ε α β : Type} (g : α → β) (e : ε) :
    (g <$> (Except.error e : Except ε α)) = Except.error e := rfl

/-- A list of plain objects is deep-copied to itself. -/
theorem isObjList_deepCopy : ∀ l : List JsVal, isObjList l = true → deepCopyEach l = l := by
  intro l h
  induction l with
  | nil => simp [deepCopyEach]
  | cons x xs ih =>
    cases x <;> simp_all [isObjList, deepCopyEach, deepCopyV]

/-- Helper: the well-formedness, deep-copy and closing facts used by the
polygon claim, proved by mutual functional induction on `wfRings`. -/
theorem wfRings_copy_close : ∀ l : List JsVal,
    (wfRings l = true → deepCopyEach l = l ∧ addLastSegment l = .ok (specClose l)) := by
  refine wfRings.induct
    (fun l => wfRings l = true → deepCopyEach l = l ∧ addLastSegment l = .ok (specClose l))
    (fun l => wfEach l = true → deepCopyEach l = l ∧ alsEach l = .ok (specCloseEach l))
    ?_ ?_ ?_ ?_ ?_
  · intro l hf hw
    rw [wfRings, if_pos hf] at hw
    simp only [Bool.and_eq_true, Bool.not_eq_true'] at hw
    obtain ⟨hne, hobj⟩ := hw
    refine ⟨isObjList_deepCopy l hobj, ?_⟩
    rw [addLastSegment, if_pos hf, specClose, if_pos hf]
    cases l with
    | nil => simp at hne
    | cons x xs => simp [List.take]
  · intro l hf ih hw
    rw [wfRings, if_neg hf] at hw
    obtain ⟨hd, ha⟩ := ih hw
    refine ⟨hd, ?_⟩
    rw [addLastSegment, if_neg hf, specClose, if_neg hf]
    exact ha
  · intro _
    simp [deepCopyEach, alsEach, specCloseEach]
  · intro xs tail ih1 ih2 hw
    simp only [wfEach, Bool.and_eq_true] at hw
    obtain ⟨h1, h2⟩ := ih1 hw.1
    obtain ⟨h3, h4⟩ := ih2 hw.2
    constructor
    · simp [deepCopyEach, deepCopyV, h1, h3]
    · simp [alsEach, specCloseEach, h2, h4]
  · intro head tail hne hw
    cases head <;> simp_all [wfEach]

/-- `addLayer` appends exactly the leaf expansion of the added layer. -/
theorem hAddLayer_layers : ∀ (st : HState) (x : JsVal),
    (hAddLayer st x).layers = st.layers ++ leaves x := by
  refine hAddLayer.induct
    (fun st x => (hAddLayer st x).layers = st.layers ++ leaves x)
    (fun st ls => (hAddEach st ls).layers = st.layers ++ leavesL ls)
    ?_ ?_ ?_ ?_
  · intro st ls ih
    simpa [hAddLayer, leaves] using ih
  · intro t st hne
    cases t <;> simp_all [hAddLayer, leaves]
  · intro st
    simp [hAddEach, leavesL]
  · intro st x xs ih1 ih2
    simp [hAddEach, leavesL, ih1, ih2]

/-- The leaf expansion never contains a group. -/
theorem leaves_no_group : ∀ x : JsVal, (leaves x).all (fun l => !isGroup l) = true := by
  refine leaves.induct
    (fun x => (leaves x).all (fun l => !isGroup l) = true)
    (fun ls => (leavesL ls).all (fun l => !isGroup l) = true)
    ?_ ?_ ?_ ?_
  · intro ls ih
    simpa [leaves] using ih
  · intro t hne
    cases t <;> simp_all [leaves, leavesL, isGroup]
  · simp [leavesL]
  · intro x xs ih1 ih2
    simp [leavesL, ih1, ih2]

/-- `removeLayer` removes exactly one occurrence of each leaf of the removed
layer's expansion, in traversal order. -/
theorem hRemoveLayer_layers : ∀ (st : HState) (x : JsVal),
    (hRemoveLayer st x).1.layers = (leaves x).foldl eraseFirst st.layers := by
  refine hRemoveLayer.induct
    (fun st x => (hRemoveLayer st x).1.layers = (leaves x).foldl eraseFirst st.layers)
    (fun st ls => (hRemoveEach st ls).layers = (leavesL ls).foldl eraseFirst st.layers)
    ?_ ?_ ?_ ?_
  · intro st ls ih
    simpa [hRemoveLayer, leaves] using ih
  · intro t st hne
    cases t <;> simp_all [hRemoveLayer, leaves]
  · intro st
    simp [hRemoveEach, leavesL]
  · intro st x xs ih1 ih2
    simp [hRemoveEach, leavesL, ih1, ih2, List.foldl_append]

/-! ## Claims -/

/-- C1 (amended): for every context, radius and fuel, when a circle's
center equals the query point `closestOnCircle` fails (the `0/0 = NaN`
coordinates are rejected by the `LatLng` constructor), and `closestLayer`
on a collection containing that circle propagates the failure to its caller
instead of treating the circle as contributing no candidate. -/
theorem closestOnCircle_degenerate_propagates (ctx : Ctx) (fuel : Nat) (c q : LatLng) (r : ℚ)
    (h : c = q) :
    closestOnCircle ctx c r q = .error .invalidLatLng ∧
    closestLayer ctx (fuel + 1) [.circle c r] q = .error .invalidLatLng := by
  subst h
  constructor
  · simp [closestOnCircle]
  · simp [closestLayer, List.foldlM, initCLState, closestOnCircle]

/-- C1 witness: the amended claim at the circle centered at the origin
queried at the origin. -/
theorem closestOnCircle_degenerate_propagates_witness :
    (⟨0, 0⟩ : LatLng) = (⟨0, 0⟩ : LatLng) ∧
    (closestOnCircle ctx0 ⟨0, 0⟩ 1 ⟨0, 0⟩ = .error .invalidLatLng ∧
     closestLayer ctx0 1 [.circle ⟨0, 0⟩ 1] ⟨0, 0⟩ = .error .invalidLatLng) :=
  ⟨rfl, closestOnCircle_degenerate_propagates ctx0 0 ⟨0, 0⟩ ⟨0, 0⟩ 1 rfl⟩

/-- C1 counterexample: with a circle centered exactly at the query point,
`closestLayer` does not return an absent result (no candidate); the failure
of `closestOnCircle` propagates out of the collection search. -/
theorem closestLayer_degenerate_circle_counterexample :
    closestLayer ctx0 9 [.circle ⟨0, 0⟩ 1] ⟨0, 0⟩ = .error .invalidLatLng ∧
    closestLayer ctx0 9 [.circle ⟨0, 0⟩ 1] ⟨0, 0⟩ ≠ .ok none := by
  constructor
  · simp [closestLayer, List.foldlM, initCLState, closestOnCircle]
  · simp [closestLayer, List.foldlM, initCLState, closestOnCircle]

/-- C2 (amended): a failure of the proximity query propagates out of
`_onMouseMove` (the event is not degraded to a no-match and no event is
fired for that sample), but the exception occurs before `this._previous` is
assigned, so the tracking state is preserved for the next event. -/
theorem onMouseMove_query_failure (ctx : Ctx) (fuel : Nat) (st : HState) (q : LatLng)
    (er : JsErr) (h : getClosest ctx fuel st q = .error er) :
    onMouseMove ctx fuel st (some q) = (st, [], some er) := by
  simp [onMouseMove, h]

/-- C2 witness: the amended claim on a handler state whose registered
layers make the query throw, with a tracked previous shape. -/
theorem onMouseMove_query_failure_witness :
    getClosest ctx0 9 stC2 ⟨0, 0⟩ = .error .typeError ∧
    onMouseMove ctx0 9 stC2 (some ⟨0, 0⟩) = (stC2, [], some .typeError) := by
  have h : getClosest ctx0 9 stC2 ⟨0, 0⟩ = .error .typeError := by
    simp [getClosest, closestLayerSnap, closestLayer, List.foldlM, initCLState, stC2]
  exact ⟨h, onMouseMove_query_failure ctx0 9 stC2 ⟨0, 0⟩ .typeError h⟩

/-- C2 counterexample: on a pointer-move event whose query fails, the state
machine does not treat the event as a no-match (which, with a tracked
previous shape, would emit `out` and clear the tracking state): the
exception escapes, nothing is emitted, and the state is left unchanged. -/
theorem onMouseMove_query_failure_counterexample :
    onMouseMove ctx0 9 stC2 (some ⟨0, 0⟩) = (stC2, [], some .typeError) ∧
    onMouseMove ctx0 9 stC2 (some ⟨0, 0⟩) ≠
      ({ stC2 with previous := none }, [Ev.out snapA.layer], none) := by
  have h : getClosest ctx0 9 stC2 ⟨0, 0⟩ = .error .typeError := by
    simp [getClosest, closestLayerSnap, closestLayer, List.foldlM, initCLState, stC2]
  constructor
  · simp [onMouseMove, h]
  · simp [onMouseMove, h]

/-- C3 (code bug): the tolerance cutoff itself behaves as specified — with
`withVertices` unset, a collection result at distance exactly equal to the
tolerance is a hit — but whenever `withVertices` is set and the winning
shape supports vertex extraction, `closestLayerSnap` throws a `TypeError`
instead of refining the result: the vertex search and the distance
recomputation both call `this.distance` with `this === undefined`.  Here
the collection search succeeds within tolerance, yet the snap throws. -/
theorem closestLayerSnap_vertex_refinement_throws :
    closestLayerSnap ctx0 9 [poly2] ⟨1, 2⟩ (some 3) false
      = .ok (some ⟨poly2, some ⟨0, 0⟩, some 3⟩) ∧
    closestLayer ctx0 9 [poly2] ⟨1, 2⟩ = .ok (some ⟨poly2, some ⟨0, 0⟩, some 3⟩) ∧
    closestLayerSnap ctx0 9 [poly2] ⟨1, 2⟩ none true = .error .typeError := by
  refine ⟨?_, ?_, ?_⟩
  · simp [closestLayerSnap, closestLayer, closest, List.foldlM, initCLState, poly2,
      deepCopyV, deepCopyEach, isFlat, segLoop, newLatLng, distanceSegment, closestOnSegment,
      maxzoomOf, qltInf, qleInf, ctx0]
    norm_num
  · simp [closestLayer, closest, List.foldlM, initCLState, poly2,
      deepCopyV, deepCopyEach, isFlat, segLoop, newLatLng, distanceSegment, closestOnSegment,
      maxzoomOf, qltInf, qleInf, ctx0]
    norm_num
  · simp [closestLayerSnap, closestLayer, closest, List.foldlM, initCLState, poly2,
      deepCopyV, deepCopyEach, isFlat, segLoop, newLatLng, distanceSegment, closestOnSegment,
      maxzoomOf, qltInf, qleInf, ctx0, hasGetLatLngs]

/-- C4 (code bug): under a context in which every segment distance ties at
`0` and `closestPointOnSegment` returns the segment's start point, the
segment search resolves the tie to the last segment (`<=`), the nested-list
recursion and the collection search resolve it to the first candidate
(`<`) — but the vertex search does not resolve ties at all: its loop body
calls `this.distance` with `this === undefined` and throws a `TypeError`
on the first vertex. -/
theorem tie_breaking_and_vertex_crash :
    closest ctx4 9 polyABC ⟨5, 5⟩ false = .ok (some ⟨⟨1, 1⟩, 0⟩) ∧
    closest ctx4 9 polyNest ⟨5, 5⟩ false = .ok (some ⟨⟨0, 0⟩, 0⟩) ∧
    closestLayer ctx4 9 [polyA2, polyB2] ⟨5, 5⟩ = .ok (some ⟨polyA2, some ⟨0, 0⟩, some 0⟩) ∧
    closest ctx4 9 polyABC ⟨5, 5⟩ true = .error .typeError := by
  refine ⟨?_, ?_, ?_, ?_⟩
  · simp [closest, polyABC, deepCopyV, deepCopyEach, isFlat, segLoop, newLatLng,
      distanceSegment, closestOnSegment, maxzoomOf, qleInf, ctx4, ctx0]
  · simp [closest, polyNest, deepCopyV, deepCopyEach, isFlat, segLoop, newLatLng,
      distanceSegment, closestOnSegment, maxzoomOf, qleInf, qltInf, ctx4, ctx0,
      List.foldlM, convertLatLngs, List.mapM, List.mapM.loop]
  · simp [closestLayer, closest, List.foldlM, initCLState, polyA2, polyB2,
      deepCopyV, deepCopyEach, isFlat, segLoop, newLatLng, distanceSegment, closestOnSegment,
      maxzoomOf, qltInf, qleInf, ctx4, ctx0]
  · simp [closest, polyABC, deepCopyV, deepCopyEach, isFlat, newLatLng]

/-- C10 (code bug): the collection search is not total at its public
interface.  An empty `LayerGroup` makes it dereference a null sub-result; a
point layer and a (non-degenerate) circle make it call the undefined
`this.distance`; a polyline whose nested sub-list collapses to fewer than
two points makes the nested recursion dereference a null sub-result. -/
theorem closestLayer_not_total :
    closestLayer ctx0 9 [.group []] ⟨0, 0⟩ = .error .typeError ∧
    closestLayer ctx0 9 [.marker ⟨1, 1⟩] ⟨0, 0⟩ = .error .typeError ∧
    closestLayer ctx0 9 [.circle ⟨5, 5⟩ 1] ⟨0, 0⟩ = .error .typeError ∧
    closestLayer ctx0 9 [.polyline [.arr [.obj 0 0]] false] ⟨0, 0⟩ = .error .typeError := by
  refine ⟨?_, ?_, ?_, ?_⟩
  · simp [closestLayer, List.foldlM, initCLState]
  · simp [closestLayer, List.foldlM, initCLState]
  · simp [closestLayer, List.foldlM, initCLState, closestOnCircle]
  · simp [closestLayer, closest, List.foldlM, initCLState, deepCopyV, deepCopyEach, isFlat,
      segLoop, newLatLng, convertLatLngs, List.mapM, List.mapM.loop, qltInf]

/-- C5: for every pointer-move sample whose query finds a shape while a
different shape (by `Util.stamp`, i.e. by object identity) was previously
tracked, the handler emits `out` on the previous shape, then `over` on the
new shape — never in the other order — then `move` on the new shape, and
transitions to tracking the new shape. -/
theorem onMouseMove_switch_order (ctx : Ctx) (fuel : Nat) (st : HState) (q : LatLng)
    (c prev : SnapResult)
    (hprev : st.previous = some prev)
    (hget : getClosest ctx fuel st q = .ok (some c))
    (hstamp : ctx.stamp prev.layer ≠ ctx.stamp c.layer) :
    onMouseMove ctx fuel st (some q) =
      ({ st with previous := some c },
       [Ev.out prev.layer, Ev.over c.layer c.latlng, Ev.move c.layer c.latlng], none) := by
  simp [onMouseMove, hget, hprev, hstamp]

/-- C5 witness: the pointer moves from tracking `polyA2` straight into
tolerance of `polyB2`; the stamps differ, `out` precedes `over`. -/
theorem onMouseMove_switch_order_witness :
    (HState.mk [polyB2] (some snapA)).previous = some snapA ∧
    getClosest ctx5 9 ⟨[polyB2], some snapA⟩ ⟨5, 5⟩
      = .ok (some ⟨polyB2, some ⟨7, 7⟩, some 0⟩) ∧
    ctx5.stamp snapA.layer ≠ ctx5.stamp (SnapResult.mk polyB2 (some ⟨7, 7⟩) (some 0)).layer ∧
    onMouseMove ctx5 9 ⟨[polyB2], some snapA⟩ (some ⟨5, 5⟩) =
      (⟨[polyB2], some ⟨polyB2, some ⟨7, 7⟩, some 0⟩⟩,
       [Ev.out snapA.layer, Ev.over polyB2 (some ⟨7, 7⟩), Ev.move polyB2 (some ⟨7, 7⟩)],
       none) := by
  have hget : getClosest ctx5 9 ⟨[polyB2], some snapA⟩ ⟨5, 5⟩
      = .ok (some ⟨polyB2, some ⟨7, 7⟩, some 0⟩) := by
    simp [getClosest, closestLayerSnap, closestLayer, closest, List.foldlM, initCLState,
      polyB2, deepCopyV, deepCopyEach, isFlat, segLoop, newLatLng, distanceSegment,
      closestOnSegment, maxzoomOf, qltInf, qleInf, ctx5, ctx4, ctx0, hasGetLatLngs]
  have hstamp : ctx5.stamp snapA.layer ≠
      ctx5.stamp (SnapResult.mk polyB2 (some ⟨7, 7⟩) (some 0)).layer := by
    simp [ctx5, ctx4, ctx0, snapA, beqV, beqL, polyA2, polyB2]
  exact ⟨rfl, hget, hstamp,
    onMouseMove_switch_order ctx5 9 ⟨[polyB2], some snapA⟩ ⟨5, 5⟩
      ⟨polyB2, some ⟨7, 7⟩, some 0⟩ snapA rfl hget hstamp⟩

/-- C6 (amended): for every layer that is neither a JavaScript array nor a
`Polyline`/`Polygon` — a shape variant `closest` cannot decompose into
points — `closest` returns `null` (absent) rather than failing with any
error. -/
theorem closest_undecomposable_returns_null (ctx : Ctx) (fuel : Nat) (layer : JsVal)
    (latlng : LatLng) (vertices : Bool) (h : undecomposable layer = true) :
    closest ctx (fuel + 1) layer latlng vertices = .ok none := by
  cases layer <;> simp_all [closest, undecomposable]

/-- C6 witness: a plain object, a marker and a circle all yield `null`. -/
theorem closest_undecomposable_returns_null_witness :
    undecomposable JsVal.plain = true ∧
    closest ctx0 1 JsVal.plain ⟨0, 0⟩ false = .ok none ∧
    undecomposable (JsVal.marker ⟨1, 1⟩) = true ∧
    closest ctx0 1 (JsVal.marker ⟨1, 1⟩) ⟨0, 0⟩ false = .ok none ∧
    undecomposable (JsVal.circle ⟨1, 1⟩ 2) = true ∧
    closest ctx0 1 (JsVal.circle ⟨1, 1⟩ 2) ⟨0, 0⟩ true = .ok none :=
  ⟨rfl, closest_undecomposable_returns_null ctx0 0 JsVal.plain ⟨0, 0⟩ false rfl,
   rfl, closest_undecomposable_returns_null ctx0 0 (JsVal.marker ⟨1, 1⟩) ⟨0, 0⟩ false rfl,
   rfl, closest_undecomposable_returns_null ctx0 0 (JsVal.circle ⟨1, 1⟩ 2) ⟨0, 0⟩ true rfl⟩

/-- C6 counterexample: an undecomposable shape does not make `closest`
fail — it returns `null`, not an error. -/
theorem closest_unsupported_no_error_counterexample :
    closest ctx0 1 JsVal.plain ⟨0, 0⟩ false = .ok none := by
  simp [closest]

/-- Objects-only lists are closed under append. -/
theorem isObjList_append (l1 l2 : List JsVal) (h1 : isObjList l1 = true)
    (h2 : isObjList l2 = true) : isObjList (l1 ++ l2) = true := by
  induction l1 with
  | nil => simpa
  | cons x xs ih => cases x <;> simp_all [isObjList]

/-- Objects-only lists are closed under `take`. -/
theorem isObjList_take (l : List JsVal) (n : Nat) (h : isObjList l = true) :
    isObjList (l.take n) = true := by
  induction l generalizing n with
  | nil => simp [isObjList]
  | cons x xs ih =>
    cases n with
    | zero => simp [isObjList]
    | succ m => cases x <;> simp_all [isObjList, List.take]

/-- C7: for every well-formed Polygon ring structure, the latlngs the
search flattens are the deep copy of the layer's stored lists with the
first vertex appended at every flat nesting level — `addLastSegment`
composed with the `JSON` deep copy refines the specification's closing
step `specClose` — and the deep copy leaves the stored lists unchanged, so
the closing mutates only the copy and the caller's shape keeps its
coordinate lists.  On a flat ring, searching the Polygon equals searching
the plain (non-Polygon) polyline whose vertex list is the closed ring. -/
theorem polygon_closing_refines_spec (l : List JsVal) (hw : wfRings l = true) :
    deepCopyEach l = l ∧
    addLastSegment (deepCopyEach l) = .ok (specClose l) ∧
    (∀ (ctx : Ctx) (fuel : Nat) (q : LatLng) (v : Bool), isFlat l = true →
      closest ctx (fuel + 1) (.polyline l true) q v
        = closest ctx (fuel + 1) (.polyline (specClose l) false) q v) := by
  obtain ⟨hd, ha⟩ := wfRings_copy_close l hw
  refine ⟨hd, by rw [hd]; exact ha, ?_⟩
  intro ctx fuel q v hf
  rw [wfRings, if_pos hf] at hw
  simp only [Bool.and_eq_true, Bool.not_eq_true'] at hw
  obtain ⟨hne, hobj⟩ := hw
  have hclose : specClose l = l ++ l.take 1 := by rw [specClose, if_pos hf]
  have hobj' : isObjList (specClose l) = true := by
    rw [hclose]
    exact isObjList_append l (l.take 1) hobj (isObjList_take l 1 hobj)
  have hd' : deepCopyEach (specClose l) = specClose l := isObjList_deepCopy _ hobj'
  simp [closest, hd, hd', ha]

/-- C7 witness: the claim on a concrete flat three-vertex ring. -/
theorem polygon_closing_refines_spec_witness :
    wfRings ring0 = true ∧
    deepCopyEach ring0 = ring0 ∧
    addLastSegment (deepCopyEach ring0) = .ok (specClose ring0) ∧
    closest ctx0 1 (.polyline ring0 true) ⟨0, 0⟩ false
      = closest ctx0 1 (.polyline (specClose ring0) false) ⟨0, 0⟩ false := by
  have hw : wfRings ring0 = true := by simp [wfRings, ring0, isFlat, isObjList]
  have hf : isFlat ring0 = true := by simp [ring0, isFlat]
  obtain ⟨h1, h2, h3⟩ := polygon_closing_refines_spec ring0 hw
  exact ⟨hw, h1, h2, h3 ctx0 0 ⟨0, 0⟩ false hf⟩

/-- C8: `addLayer` appends exactly the recursive leaf expansion of the
added layer (so groups are expanded before registration and the registered
list never receives a group), the leaf expansion contains no group, and
`removeLayer` mirrors the same recursive expansion, removing one occurrence
of every leaf member of a removed group. -/
theorem register_expands_groups (st : HState) (x : JsVal) :
    (hAddLayer st x).layers = st.layers ++ leaves x ∧
    (leaves x).all (fun l => !isGroup l) = true ∧
    (hRemoveLayer st x).1.layers = (leaves x).foldl eraseFirst st.layers :=
  ⟨hAddLayer_layers st x, leaves_no_group x, hRemoveLayer_layers st x⟩

/-- C9: removing any layer — even one that is not the currently tracked
shape, and whatever the current session state is — resets the tracking
state to absent unconditionally and fires no event. -/
theorem unregister_resets_silently (st : HState) (x : JsVal) :
    (hRemoveLayer st x).1.previous = none ∧ (hRemoveLayer st x).2 = [] := by
  cases x <;> simp [hRemoveLayer]
